import Mathlib

set_option linter.unusedVariables false

/-
  Verification development for the Reddit live-chat downloader
  (src/chat_downloader/sites/reddit.py).

  The embedding models JSON values, the Python dictionary/truthiness
  semantics the source relies on, the endpoint resolver
  (`get_chat_by_stream_id`), the websocket feed consumer
  (`_get_chat_messages_by_socket`) and the record normalizer
  (`_parse_item` with `_REMAPPING`).

  External collaborators (HTTP transport, the JSON deserializer, the
  websocket library) are abstracted: each resolution attempt is fed the
  already-parsed JSON response through an oracle, and the feed consumer
  is driven by a finite trace of socket events.
-/

/-- JSON values as delivered by the (external) deserializer. -/
inductive Json where
  | null
  | bool (b : Bool)
  | num (v : Int)
  | str (s : String)
  | arr (elems : List Json)
  | obj (fields : List (String × Json))

/-- Python-level exceptions that can escape the embedded code. -/
inductive PyErr where
  | attributeError
  | typeError
  | jsonDecodeError
  deriving DecidableEq

/-- First-match lookup in an association list, as Python dict lookup
(our object model keeps the first binding for a key). -/
def lookupField : List (String × Json) → String → Option Json
  | [], _ => none
  | (k, v) :: rest, key => if k == key then some v else lookupField rest key

/-- Safe field access: `multi_get`-style lookup that yields `none` on a
non-object instead of raising. -/
def Json.get : Json → String → Option Json
  | Json.obj fields, key => lookupField fields key
  | _, _ => none

/-- Python truthiness of a JSON value. -/
def truthy : Json → Bool
  | Json.null => false
  | Json.bool b => b
  | Json.num v => v != 0
  | Json.str s => s != ""
  | Json.arr elems => !elems.isEmpty
  | Json.obj fields => !fields.isEmpty

/-- Truthiness of an optional value (`None` is falsy). -/
def truthyOpt : Option Json → Bool
  | some j => truthy j
  | none => false

/-- The `.get(key)` method of the source: raises `AttributeError` when the
receiver is not a dictionary, else returns the value or `None`. -/
def pyGetJ (j : Json) (key : String) : Except PyErr (Option Json) :=
  match j with
  | Json.obj fields => Except.ok (lookupField fields key)
  | _ => Except.error PyErr.attributeError

/-- Python `x == 'lit'` for a possibly-absent JSON value compared with a
string literal: true exactly when the value is that string. -/
def isStr (o : Option Json) (s : String) : Bool :=
  match o with
  | some (Json.str t) => t == s
  | _ => false

/-- Python `a or b` on optional values: `a` when truthy, else `b`. -/
def pyOr (a b : Option Json) : Option Json :=
  if truthyOpt a then a else b

/-- Python `a or b` where `b` is a known dictionary, as in
`data.get('post') or data` (reddit.py lines 190-191). -/
def orElseJson (a : Option Json) (b : Json) : Json :=
  match a with
  | some j => if truthy j then j else b
  | none => b

/-- Python `value * 1000` on the value extracted for the start time
(reddit.py lines 197-198): numbers scale, strings and lists repeat,
`None` and dictionaries raise `TypeError`. -/
def pyMul1000 : Option Json → Except PyErr Json
  | some (Json.num v) => Except.ok (Json.num (v * 1000))
  | some (Json.bool b) => Except.ok (Json.num (if b then 1000 else 0))
  | some (Json.str s) => Except.ok (Json.str (String.join (List.replicate 1000 s)))
  | some (Json.arr elems) => Except.ok (Json.arr (List.flatten (List.replicate 1000 elems)))
  | some Json.null => Except.error PyErr.typeError
  | some (Json.obj _) => Except.error PyErr.typeError
  | none => Except.error PyErr.typeError

/-- Modelled from the spec: `int_or_none` from `chat_downloader.utils.core`
(declared an external collaborator; not under src/): parse as a number,
defaulting when unparseable. -/
def int_or_none (x : Json) (default : Int) : Int :=
  match x with
  | Json.num v => v
  | Json.bool b => if b then 1 else 0
  | Json.str s => (s.toInt?).getD default
  | _ => default

def _REDDIT_HOMEPAGE : String := "https://www.reddit.com"

/-- Nested author structure produced by hoisting the `author_*` fields
(`_move_to_dict(info, 'author')`, reddit.py line 136). -/
structure AuthorInfo where
  name : Option Json := none
  id : Option Json := none
  str_id : Option Json := none
  profile_img : Option Json := none
  flair_type : Option Json := none

/-- Canonical record produced by `_parse_item` (reddit.py lines 131-142),
with the field targets of `_REMAPPING` (lines 84-126). -/
structure ParsedItem where
  author : AuthorInfo := {}
  author_display_name : Option Json := none
  subreddit_id : Option Json := none
  message : Option Json := none
  message_html : Option Json := none
  timestamp : Option Int := none
  message_id : Option Json := none
  message_name : Option Json := none
  score : Option Json := none
  url : Option Json := none

/-- `_parse_item` (reddit.py lines 131-142). The remapping transforms are
taken from `_REMAPPING` in src (identity maps, the `created_utc` lambda
`int_or_none(x, time.time()) * 1000000` at line 95, and the `context`
lambda prefixing the homepage at line 101); the surrounding
`Remapper.remap_dict` / `_move_to_dict` mechanics are modelled from the
spec, section 4.3: absent source fields map to absent target fields, the
`author_*` group is hoisted, and a truthy `author.name` is copied to
`author_display_name`. `now` stands for `time.time()`. A non-dictionary
item raises, as dictionary iteration over it would. -/
def _parse_item (now : Int) (item : Json) : Except PyErr ParsedItem :=
  match item with
  | Json.obj fields =>
    match lookupField fields "context" with
    | some (Json.str s) => Except.ok (parsedOf fields (some (Json.str (_REDDIT_HOMEPAGE ++ s))))
    | some _ => Except.error PyErr.typeError
    | none => Except.ok (parsedOf fields none)
  | _ => Except.error PyErr.attributeError
where
  parsedOf (fields : List (String × Json)) (url : Option Json) : ParsedItem :=
    { author :=
        { name := lookupField fields "author"
          id := lookupField fields "author_id"
          str_id := lookupField fields "author_fullname"
          profile_img := lookupField fields "author_icon_img"
          flair_type := lookupField fields "author_flair_type" }
      author_display_name :=
        if truthyOpt (lookupField fields "author") then lookupField fields "author" else none
      subreddit_id := lookupField fields "subreddit_id"
      message := lookupField fields "body"
      message_html := lookupField fields "body_html"
      timestamp := (lookupField fields "created_utc").map (fun x => int_or_none x now * 1000000)
      message_id := lookupField fields "link_id"
      message_name := lookupField fields "name"
      score := lookupField fields "score"
      url := url }

/-
  Endpoint Resolver: `get_chat_by_stream_id` (reddit.py lines 161-232)
  together with the endpoint templates (lines 158-159).
-/

def _API_TEMPLATE (stream_id : String) : String :=
  "https://strapi.reddit.com/videos/t3_" ++ stream_id

def _FALLBACK_API_TEMPLATE (stream_id : String) : String :=
  "https://gateway.reddit.com/desktopapi/v1/postcomments/t3_" ++ stream_id ++ "?limit=1"

/-- The URL requested on a given attempt: `fallback = attempt_number % 2 == 1`
(reddit.py line 166) selects between the two templates (lines 169-170 and
179-180). -/
def requestURL (stream_id : String) (attempt_number : Nat) : String :=
  if attempt_number % 2 == 1 then _FALLBACK_API_TEMPLATE stream_id
  else _API_TEMPLATE stream_id

/-- Result of one resolution, mirroring the exits of
`get_chat_by_stream_id`: the returned `Chat` object, or one of the raised
errors (`ChatDisabled`, `RedditError`, `VideoNotFound`, `UnexpectedError`),
or the retry budget running out, or a Python-level exception escaping. -/
inductive ResolveResult where
  | chat (title : Option Json) (is_live : Bool) (start_time : Json) (socket_url : String)
  | chatDisabled
  | redditError (msg : String)
  | videoNotFound (status_message : Option Json)
  | unexpectedError (payload : Json)
  | retriesExceeded
  | crash (e : PyErr)

/-- Outcome of processing one response: either a final result, or the
soft-failure path that applies the retry policy and recurses. -/
inductive StepOutcome where
  | done (r : ResolveResult)
  | retryWait (msg : String)

/-- Character-list substring search: does `needle` occur inside the list. -/
def listContains (needle : List Char) : List Char → Bool
  | [] => needle.isEmpty
  | c :: rest => needle.isPrefixOf (c :: rest) || listContains needle rest

/-- `p.startswith(q)` on strings, via the underlying character lists. -/
def strStartsWith (s p : String) : Bool :=
  p.data.isPrefixOf s.data

/-- The soft-failure test `'wait' in data.lower()` (reddit.py line 220):
case-insensitive substring match for the token `wait`. -/
def containsWait (s : String) : Bool :=
  listContains "wait".data (s.data.map Char.toLower)

/-- `data = multi_get(initial_info, 'posts', 't3_{stream_id}')`
(reddit.py line 182). -/
def fallbackData (stream_id : String) (info : Json) : Option Json :=
  (info.get "posts").bind (fun p => p.get ("t3_" ++ stream_id))

/-- The `status` value of an attempt: field access on the primary endpoint
(line 172, raising on a non-dictionary response), presence-derived on the
fallback endpoint (`'success' if data else None`, line 183). -/
def statusOf (stream_id : String) (attempt_number : Nat) (info : Json) : Except PyErr (Option Json) :=
  if attempt_number % 2 == 1 then
    Except.ok (if truthyOpt (fallbackData stream_id info) then some (Json.str "success") else none)
  else pyGetJ info "status"

/-- The `status_message` value of an attempt (line 173; never read on the
fallback path). -/
def statusMessageOf (stream_id : String) (attempt_number : Nat) (info : Json) : Except PyErr (Option Json) :=
  if attempt_number % 2 == 1 then Except.ok none
  else pyGetJ info "status_message"

/-- The `data` value of an attempt (line 174 on the primary endpoint,
line 182 on the fallback endpoint). -/
def dataOf (stream_id : String) (attempt_number : Nat) (info : Json) : Except PyErr (Option Json) :=
  if attempt_number % 2 == 1 then Except.ok (fallbackData stream_id info)
  else pyGetJ info "data"

def postInfoOf (d : Json) : Json := orElseJson (d.get "post") d

def streamInfoOf (d : Json) : Json := orElseJson (d.get "stream") d

/-- `is_live = (state == 'IS_LIVE' or fallback)` (reddit.py line 196). -/
def computeIsLive (state : Option Json) (fallback : Bool) : Bool :=
  isStr state "IS_LIVE" || fallback

/-- Liveness extraction: read `state` from the stream substructure
(line 195) and combine with the endpoint parity (line 196). -/
def isLiveOf (fallback : Bool) (d : Json) : Except PyErr Bool :=
  (pyGetJ (streamInfoOf d) "state").map (fun st => computeIsLive st fallback)

/-- `start_time = (stream_info.get('publish_at') or stream_info.get('created')) * 1000`
(reddit.py lines 197-198). -/
def startTimeOf (d : Json) : Except PyErr Json :=
  match pyGetJ (streamInfoOf d) "publish_at", pyGetJ (streamInfoOf d) "created" with
  | Except.error e, _ => Except.error e
  | _, Except.error e => Except.error e
  | Except.ok pa, Except.ok cr => pyMul1000 (pyOr pa cr)

/-- The `status == 'success'` branch of `get_chat_by_stream_id`
(reddit.py lines 185-217), for `data` already known to be a dictionary. -/
def successBranch (fallback : Bool) (d : Json) : ResolveResult :=
  if truthyOpt (d.get "chat_disabled") then ResolveResult.chatDisabled
  else
    match pyGetJ (postInfoOf d) "title" with
    | Except.error e => ResolveResult.crash e
    | Except.ok title =>
      match isLiveOf fallback d with
      | Except.error e => ResolveResult.crash e
      | Except.ok is_live =>
        match startTimeOf d with
        | Except.error e => ResolveResult.crash e
        | Except.ok start_time =>
          match pyGetJ (postInfoOf d) "liveCommentsWebsocket" with
          | Except.error e => ResolveResult.crash e
          | Except.ok socket_url =>
            if is_live && truthyOpt socket_url then
              match socket_url with
              | some (Json.str u) =>
                if strStartsWith u "wss://" then
                  ResolveResult.chat title is_live start_time u
                else ResolveResult.redditError ("Invalid websocket URL: " ++ u)
              | _ => ResolveResult.crash PyErr.attributeError
            else ResolveResult.redditError "Video ended. Chat replay not implemented yet."

/-- Dispatch on the interpreted `status` (reddit.py lines 185-232). -/
def resolveDispatch (fallback : Bool) (info : Json) (status_message : Option Json)
    (status : Option Json) (data : Option Json) : StepOutcome :=
  if isStr status "success" then
    match data with
    | some (Json.obj fields) => StepOutcome.done (successBranch fallback (Json.obj fields))
    | _ => StepOutcome.done (ResolveResult.crash PyErr.attributeError)
  else if isStr status "failure" then
    match data with
    | some (Json.str s) =>
      if containsWait s then StepOutcome.retryWait s
      else StepOutcome.done (ResolveResult.redditError s)
    | _ => StepOutcome.done (ResolveResult.crash PyErr.attributeError)
  else if isStr status "video not found" then
    StepOutcome.done (ResolveResult.videoNotFound status_message)
  else
    StepOutcome.done (ResolveResult.unexpectedError info)

/-- One attempt of `get_chat_by_stream_id` applied to the parsed response
`info` of that attempt. -/
def resolveStep (stream_id : String) (attempt_number : Nat) (info : Json) : StepOutcome :=
  match statusOf stream_id attempt_number info,
        statusMessageOf stream_id attempt_number info,
        dataOf stream_id attempt_number info with
  | Except.error e, _, _ => StepOutcome.done (ResolveResult.crash e)
  | _, Except.error e, _ => StepOutcome.done (ResolveResult.crash e)
  | _, _, Except.error e => StepOutcome.done (ResolveResult.crash e)
  | Except.ok status, Except.ok status_message, Except.ok data =>
    resolveDispatch (attempt_number % 2 == 1) info status_message status data

/-- Modelled from the spec: the retry utility (`attempts` / `self.retry`
from `chat_downloader.utils.core` and the base downloader, declared
external collaborators and not under src/) sleeps and continues while the
attempt budget allows, and surfaces a budget-exceeded error once
`maxAttempts` is exhausted. `resolveFrom fetch maxAttempts id n` runs
`get_chat_by_stream_id` from attempt `n`, where `fetch` maps each attempt
number to the parsed JSON response of the request issued for it
(`_try_get_info`, with its internal transport retries abstracted away).
The second component lists the URLs requested, in order. -/
def resolveFrom (fetch : Nat → Json) (maxAttempts : Nat) (stream_id : String)
    (n : Nat) : ResolveResult × List String :=
  match resolveStep stream_id n (fetch n) with
  | StepOutcome.done r => (r, [requestURL stream_id n])
  | StepOutcome.retryWait _ =>
    if h : n < maxAttempts then
      let rest := resolveFrom fetch maxAttempts stream_id (n + 1)
      (rest.1, requestURL stream_id n :: rest.2)
    else (ResolveResult.retriesExceeded, [requestURL stream_id n])
termination_by maxAttempts - n
decreasing_by omega

/-
  Feed Consumer: `_get_chat_messages_by_socket` (reddit.py lines 234-284).
  The websocket library is external: the consumer is driven by a finite
  trace of socket events. A received frame carries the outcome of
  `json.loads` on its raw bytes (`none` when decoding raises
  `JSONDecodeError`). Connection establishment is represented by the
  consumer opening numbered sockets against the fixed feed address.
-/

/-- One observable event on the socket inside the `Streaming` loop. -/
inductive SockEvent where
  | timeout
  | connError
  | frame (decoded : Option Json)

/-- `message_type in self._KNOWN_MESSAGE_TYPES` (reddit.py lines 128-129
and 261): true exactly for the four known string values. -/
def isKnownType (o : Option Json) : Bool :=
  match o with
  | some (Json.str s) =>
    s == "new_comment" || s == "delete_comment" ||
    s == "remove_comment" || s == "update_comment_score"
  | _ => false

/-- The string content of a known message type value. -/
def typeString (o : Option Json) : String :=
  match o with
  | some (Json.str s) => s
  | _ => ""

/-- A record as yielded by the generator: the parsed payload with
`message_type` attached (reddit.py line 265). -/
structure EmittedRec where
  message_type : String
  item : ParsedItem

/-- `payload = data.get('payload'); parsed = self._parse_item(payload)`
(reddit.py lines 262-264): a missing payload reaches `_parse_item` as
`None` and raises there. -/
def parsePayload (now : Int) (p : Option Json) : Except PyErr ParsedItem :=
  match p with
  | some j => _parse_item now j
  | none => Except.error PyErr.attributeError

/-- The observable outcome of running the streaming loop over a finite
trace of socket events: the records yielded, the sockets opened (with the
address each connection used) and closed, in order, whether an exception
escaped the generator, and the live socket when the trace ends with the
loop still streaming. -/
structure ConsRun where
  emitted : List EmittedRec
  opened : List (String × Nat)
  closed : List Nat
  escaped : Option PyErr
  current : Option Nat

/-- The `while True` receive loop (reddit.py lines 254-281), processing a
finite trace of events on the socket numbered `cur` (the next fresh socket
being `next`). A timeout is swallowed (line 273-274). A connection-class
error closes the stale socket and opens a fresh connection to the same
address (lines 276-281). A frame is decoded; a decode failure escapes the
loop (no handler catches `JSONDecodeError`) and the `finally` block closes
the socket (lines 283-284); a decoded frame of a known type is parsed and
yielded, any other type is logged and skipped (lines 259-271). -/
def consumeLoop (now : Int) (url : String) (cur next : Nat) : List SockEvent → ConsRun
  | [] =>
    { emitted := [], opened := [], closed := [], escaped := none, current := some cur }
  | SockEvent.timeout :: rest => consumeLoop now url cur next rest
  | SockEvent.connError :: rest =>
    let r := consumeLoop now url next (next + 1) rest
    { r with closed := cur :: r.closed, opened := (url, next) :: r.opened }
  | SockEvent.frame none :: _ =>
    { emitted := [], opened := [], closed := [cur],
      escaped := some PyErr.jsonDecodeError, current := none }
  | SockEvent.frame (some d) :: rest =>
    match d with
    | Json.obj fields =>
      let message_type := lookupField fields "type"
      if isKnownType message_type then
        match parsePayload now (lookupField fields "payload") with
        | Except.error e =>
          { emitted := [], opened := [], closed := [cur], escaped := some e, current := none }
        | Except.ok item =>
          let r := consumeLoop now url cur next rest
          { r with emitted := { message_type := typeString message_type, item := item } :: r.emitted }
      else consumeLoop now url cur next rest
    | _ =>
      { emitted := [], opened := [], closed := [cur],
        escaped := some PyErr.attributeError, current := none }

/-- `_get_chat_messages_by_socket`: open the initial connection (socket 0,
reddit.py line 251) and run the streaming loop over the event trace. -/
def runConsumer (now : Int) (url : String) (events : List SockEvent) : ConsRun :=
  let r := consumeLoop now url 0 1 events
  { r with opened := (url, 0) :: r.opened }

/-
  Concrete inputs used by the claim theorems, their witnesses and
  counterexamples.
-/

/-- A primary-endpoint success response whose `chat_disabled` flag sits
inside the `post` substructure (the shape documented for the primary
endpoint), not in the flat `data` record. -/
def dataDisabledInPost : Json := Json.obj [
  ("post", Json.obj [("title", Json.str "T"), ("chat_disabled", Json.bool true),
                     ("liveCommentsWebsocket", Json.str "wss://x")]),
  ("stream", Json.obj [("state", Json.str "IS_LIVE"), ("publish_at", Json.num 1)])]

def respDisabledInPost : Json :=
  Json.obj [("status", Json.str "success"), ("data", dataDisabledInPost)]

/-- A success response with `chat_disabled` in the flat `data` record. -/
def respDisabledFlat : Json :=
  Json.obj [("status", Json.str "success"),
            ("data", Json.obj [("chat_disabled", Json.bool true)])]

/-- A primary-endpoint success response for an ended stream whose feed
address does not use the secure scheme. -/
def dataEndedInsecure : Json := Json.obj [
  ("post", Json.obj [("title", Json.str "T"),
                     ("liveCommentsWebsocket", Json.str "ws://insecure.example")]),
  ("stream", Json.obj [("state", Json.str "ENDED"), ("publish_at", Json.num 1)])]

def respEndedInsecure : Json :=
  Json.obj [("status", Json.str "success"), ("data", dataEndedInsecure)]

/-- A live success response whose feed address does not use the secure
scheme. -/
def dataLiveInsecure : Json := Json.obj [
  ("post", Json.obj [("title", Json.str "T"),
                     ("liveCommentsWebsocket", Json.str "ws://insecure.example")]),
  ("stream", Json.obj [("state", Json.str "IS_LIVE"), ("publish_at", Json.num 1)])]

/-- A live success response with `publish_at` present but zero and a
nonzero `created`. -/
def dataZeroPublish : Json := Json.obj [
  ("post", Json.obj [("title", Json.str "T"), ("liveCommentsWebsocket", Json.str "wss://x")]),
  ("stream", Json.obj [("state", Json.str "IS_LIVE"), ("publish_at", Json.num 0),
                       ("created", Json.num 5)])]

def respZeroPublish : Json :=
  Json.obj [("status", Json.str "success"), ("data", dataZeroPublish)]

/-- A live success response with a truthy `publish_at`. -/
def dataLiveOk : Json := Json.obj [
  ("post", Json.obj [("title", Json.str "T"), ("liveCommentsWebsocket", Json.str "wss://x")]),
  ("stream", Json.obj [("state", Json.str "IS_LIVE"), ("publish_at", Json.num 7)])]

/-- A failure response carrying a soft "please wait" provider message. -/
def waitResp : Json :=
  Json.obj [("status", Json.str "failure"), ("data", Json.str "please wait 10 seconds")]

/-- A failure response carrying a hard provider message. -/
def banResp : Json :=
  Json.obj [("status", Json.str "failure"), ("data", Json.str "banned")]

/-- Well-formed `new_comment` frames as delivered on the feed. -/
def payloadA : Json := Json.obj [("author", Json.str "alice"), ("body", Json.str "hi"),
                                 ("created_utc", Json.num 1625242320)]

def frameA : Json := Json.obj [("type", Json.str "new_comment"), ("payload", payloadA)]

def payloadB : Json := Json.obj [("author", Json.str "bob"), ("body", Json.str "yo"),
                                 ("created_utc", Json.num 1625242321)]

def frameB : Json := Json.obj [("type", Json.str "new_comment"), ("payload", payloadB)]

/-- The normalized records the two frames map to. -/
def itemA : ParsedItem :=
  { author := { name := some (Json.str "alice") },
    author_display_name := some (Json.str "alice"),
    message := some (Json.str "hi"),
    timestamp := some 1625242320000000 }

def itemB : ParsedItem :=
  { author := { name := some (Json.str "bob") },
    author_display_name := some (Json.str "bob"),
    message := some (Json.str "yo"),
    timestamp := some 1625242321000000 }

/-
  Helper lemmas.
-/

theorem isStr_eq_true_iff (o : Option Json) (s : String) :
    isStr o s = true ↔ o = some (Json.str s) := by
  cases o with
  | none => simp [isStr]
  | some j => cases j <;> simp [isStr]

/-- Every run of the resolver issues at least one request. -/
theorem resolveFrom_calls_nonempty (fetch : Nat → Json) (maxAttempts : Nat)
    (stream_id : String) (n : Nat) :
    1 ≤ (resolveFrom fetch maxAttempts stream_id n).2.length := by
  rw [resolveFrom]
  split
  · simp
  · split
    · simp
    · simp

/-- The success branch never raises `VideoNotFound`. -/
theorem successBranch_ne_videoNotFound (fallback : Bool) (d : Json) (sm : Option Json) :
    successBranch fallback d ≠ ResolveResult.videoNotFound sm := by
  intro h
  unfold successBranch at h
  repeat' split at h
  all_goals simp_all

/-- Timeouts are invisible to the streaming loop: removing a timeout event
from the trace leaves the run unchanged. -/
theorem consumeLoop_timeout_skip (now : Int) (url : String) :
    ∀ (pre post : List SockEvent) (cur next : Nat),
      consumeLoop now url cur next (pre ++ SockEvent.timeout :: post) =
        consumeLoop now url cur next (pre ++ post) := by
  intro pre
  induction pre with
  | nil => intro post cur next; rfl
  | cons e rest ih =>
    intro post cur next
    cases e with
    | timeout =>
      simp only [List.cons_append, List.append_eq, consumeLoop]
      exact ih post cur next
    | connError =>
      simp only [List.cons_append, List.append_eq, consumeLoop]
      rw [ih]
    | frame od =>
      cases od with
      | none => simp only [List.cons_append, consumeLoop]
      | some d =>
        cases d with
        | obj fields =>
          simp only [List.cons_append, List.append_eq, consumeLoop]
          by_cases hk : isKnownType (lookupField fields "type")
          · simp only [hk, if_true]
            cases hp : parsePayload now (lookupField fields "payload") with
            | error e => rfl
            | ok item => rw [ih]
          · simp only [hk, if_false]
            exact ih post cur next
        | null => simp only [List.cons_append, consumeLoop]
        | bool b => simp only [List.cons_append, consumeLoop]
        | num v => simp only [List.cons_append, consumeLoop]
        | str s => simp only [List.cons_append, consumeLoop]
        | arr elems => simp only [List.cons_append, consumeLoop]

/-- A frame whose payload fails to decode escapes the streaming loop: the
records already yielded are kept, nothing after the bad frame is
processed, and the `JSONDecodeError` propagates. -/
theorem consumeLoop_decode_escape (now : Int) (url : String) :
    ∀ (pre post : List SockEvent) (cur next : Nat),
      (consumeLoop now url cur next pre).escaped = none →
      (consumeLoop now url cur next (pre ++ SockEvent.frame none :: post)).escaped =
          some PyErr.jsonDecodeError ∧
      (consumeLoop now url cur next (pre ++ SockEvent.frame none :: post)).emitted =
          (consumeLoop now url cur next pre).emitted := by
  intro pre
  induction pre with
  | nil => intro post cur next h; exact ⟨rfl, rfl⟩
  | cons e rest ih =>
    intro post cur next h
    cases e with
    | timeout =>
      simp only [List.cons_append, List.append_eq, consumeLoop] at h ⊢
      exact ih post cur next h
    | connError =>
      simp only [List.cons_append, List.append_eq, consumeLoop] at h ⊢
      exact ih post next (next + 1) h
    | frame od =>
      cases od with
      | none => simp [consumeLoop] at h
      | some d =>
        cases d with
        | obj fields =>
          simp only [List.cons_append, List.append_eq, consumeLoop] at h ⊢
          by_cases hk : isKnownType (lookupField fields "type")
          · simp only [hk, if_true] at h ⊢
            cases hp : parsePayload now (lookupField fields "payload") with
            | error e2 => rw [hp] at h; simp at h
            | ok item =>
              rw [hp] at h
              have h2 : (consumeLoop now url cur next rest).escaped = none := by
                simpa using h
              have hrec := ih post cur next h2
              refine ⟨by simpa using hrec.1, ?_⟩
              simpa using hrec.2
          · simp only [hk, if_false] at h ⊢
            exact ih post cur next h
        | null => simp [consumeLoop] at h
        | bool b => simp [consumeLoop] at h
        | num v => simp [consumeLoop] at h
        | str s => simp [consumeLoop] at h
        | arr elems => simp [consumeLoop] at h

/-
  C1.
-/

/-- C1: for every attempt number `n`, `get_chat_by_stream_id` queries the
primary endpoint `strapi.reddit.com/videos/t3_...` when `n` is even and
the fallback endpoint
`gateway.reddit.com/desktopapi/v1/postcomments/t3_...` when `n` is odd;
the choice depends only on the attempt counter. -/
theorem c1_endpoint_parity (stream_id : String) (n : Nat) :
    (n % 2 = 0 → requestURL stream_id n = _API_TEMPLATE stream_id) ∧
    (n % 2 = 1 → requestURL stream_id n = _FALLBACK_API_TEMPLATE stream_id) := by
  constructor <;> intro h <;> simp [requestURL, h]

theorem c1_endpoint_parity_witness :
    requestURL "abc" 4 = _API_TEMPLATE "abc" ∧
    requestURL "abc" 7 = _FALLBACK_API_TEMPLATE "abc" :=
  ⟨(c1_endpoint_parity "abc" 4).1 rfl, (c1_endpoint_parity "abc" 7).2 rfl⟩

/-
  C2.
-/

/-- C2 counterexample: a frame whose payload fails to decode as JSON does
not get dropped with streaming continuing; the `JSONDecodeError` raised by
`json.loads` is caught by neither `except` clause of the streaming loop
(reddit.py lines 273-276 catch only timeout and connection-class errors),
so it escapes the generator and terminates the record sequence, the
`finally` block closing the socket. -/
theorem c2_decode_failure_counterexample :
    runConsumer 99 "wss://feed.example" [SockEvent.frame none] =
      { emitted := [], opened := [("wss://feed.example", 0)], closed := [0],
        escaped := some PyErr.jsonDecodeError, current := none } ∧
    some PyErr.jsonDecodeError ≠ (none : Option PyErr) :=
  ⟨rfl, by simp⟩

/-- C2 amended: for every frame received in the Streaming state whose
payload fails to decode as JSON, the decode failure escapes the consumer:
it propagates to the caller as a `JSONDecodeError` and terminates the
record sequence, keeping exactly the records emitted before the bad frame
and processing nothing after it. -/
theorem c2_decode_failure_propagates (now : Int) (url : String)
    (pre post : List SockEvent)
    (h : (runConsumer now url pre).escaped = none) :
    (runConsumer now url (pre ++ SockEvent.frame none :: post)).escaped =
        some PyErr.jsonDecodeError ∧
    (runConsumer now url (pre ++ SockEvent.frame none :: post)).emitted =
        (runConsumer now url pre).emitted := by
  have h0 : (consumeLoop now url 0 1 pre).escaped = none := by
    simpa [runConsumer] using h
  have hrec := consumeLoop_decode_escape now url pre post 0 1 h0
  exact ⟨by simpa [runConsumer] using hrec.1, by simpa [runConsumer] using hrec.2⟩

theorem c2_decode_failure_propagates_witness :
    (runConsumer 99 "wss://feed.example"
        ([SockEvent.frame (some frameA)] ++ SockEvent.frame none :: [SockEvent.frame (some frameB)])).escaped =
        some PyErr.jsonDecodeError ∧
    (runConsumer 99 "wss://feed.example"
        ([SockEvent.frame (some frameA)] ++ SockEvent.frame none :: [SockEvent.frame (some frameB)])).emitted =
        (runConsumer 99 "wss://feed.example" [SockEvent.frame (some frameA)]).emitted :=
  c2_decode_failure_propagates 99 "wss://feed.example"
    [SockEvent.frame (some frameA)] [SockEvent.frame (some frameB)] rfl

/-
  C3.
-/

/-- C3 counterexample: a primary-endpoint success response that carries
`chat_disabled: true` inside the `post` substructure (the shape the
primary endpoint is documented to use) does not make the resolver fail
with `ChatDisabled`: the code reads `chat_disabled` only from the flat
`data` record (reddit.py line 186), finds nothing there, and proceeds to
return a live chat handle. -/
theorem c3_chat_disabled_counterexample :
    (postInfoOf dataDisabledInPost).get "chat_disabled" = some (Json.bool true) ∧
    resolveStep "abc" 0 respDisabledInPost =
      StepOutcome.done (ResolveResult.chat (some (Json.str "T")) true (Json.num 1000) "wss://x") ∧
    ResolveResult.chat (some (Json.str "T")) true (Json.num 1000) "wss://x" ≠
      ResolveResult.chatDisabled :=
  ⟨rfl, rfl, fun heq => nomatch heq⟩

/-- C3 amended: `chat_disabled` is read from the flat `data` record on
both endpoints; whenever a success response has a truthy `chat_disabled`
there, `resolve` fails with `ChatDisabled` immediately, regardless of the
attempt number, is never retried, and performs no further network calls
(the request of the current attempt is the only one issued from attempt
`n` on). -/
theorem c3_chat_disabled_flat_fail_fast (fetch : Nat → Json) (maxAttempts : Nat)
    (stream_id : String) (n : Nat) (fields : List (String × Json)) (sm : Option Json)
    (hst : statusOf stream_id n (fetch n) = Except.ok (some (Json.str "success")))
    (hsm : statusMessageOf stream_id n (fetch n) = Except.ok sm)
    (hd : dataOf stream_id n (fetch n) = Except.ok (some (Json.obj fields)))
    (hcd : truthyOpt (lookupField fields "chat_disabled") = true) :
    resolveFrom fetch maxAttempts stream_id n =
      (ResolveResult.chatDisabled, [requestURL stream_id n]) := by
  rw [resolveFrom]
  rw [resolveStep, hst, hsm, hd]
  simp [resolveDispatch, isStr, successBranch, Json.get, hcd]

theorem c3_chat_disabled_flat_fail_fast_witness :
    resolveFrom (fun _ => respDisabledFlat) 10 "abc" 0 =
      (ResolveResult.chatDisabled, [requestURL "abc" 0]) :=
  c3_chat_disabled_flat_fail_fast (fun _ => respDisabledFlat) 10 "abc" 0
    [("chat_disabled", Json.bool true)] none rfl rfl rfl rfl

/-
  C4.
-/

/-- C4: for every failure-status response, a provider message containing
the token `wait` (case-insensitive substring match, reddit.py line 220)
triggers the retry policy: the resolver retries with attempt number plus
one, so at least two requests are issued before it succeeds or exhausts
the budget, and exhausting the budget surfaces the budget-exceeded error;
a failure message without the token fails immediately with the provider
error carrying the raw message, with no retry. -/
theorem c4_failure_classification (fetch : Nat → Json) (maxAttempts : Nat)
    (stream_id : String) (n : Nat) (s : String) (sm : Option Json)
    (hst : statusOf stream_id n (fetch n) = Except.ok (some (Json.str "failure")))
    (hsm : statusMessageOf stream_id n (fetch n) = Except.ok sm)
    (hd : dataOf stream_id n (fetch n) = Except.ok (some (Json.str s))) :
    (containsWait s = true →
      (n < maxAttempts →
        resolveFrom fetch maxAttempts stream_id n =
          ((resolveFrom fetch maxAttempts stream_id (n + 1)).1,
           requestURL stream_id n :: (resolveFrom fetch maxAttempts stream_id (n + 1)).2) ∧
        2 ≤ (resolveFrom fetch maxAttempts stream_id n).2.length) ∧
      (maxAttempts ≤ n →
        resolveFrom fetch maxAttempts stream_id n =
          (ResolveResult.retriesExceeded, [requestURL stream_id n]))) ∧
    (containsWait s = false →
      resolveFrom fetch maxAttempts stream_id n =
        (ResolveResult.redditError s, [requestURL stream_id n])) := by
  have hstep : resolveStep stream_id n (fetch n) =
      (if containsWait s then StepOutcome.retryWait s
       else StepOutcome.done (ResolveResult.redditError s)) := by
    rw [resolveStep, hst, hsm, hd]
    simp [resolveDispatch, isStr]
  refine ⟨fun hw => ⟨fun hlt => ?_, fun hge => ?_⟩, fun hnw => ?_⟩
  · have heq : resolveFrom fetch maxAttempts stream_id n =
        ((resolveFrom fetch maxAttempts stream_id (n + 1)).1,
         requestURL stream_id n :: (resolveFrom fetch maxAttempts stream_id (n + 1)).2) := by
      conv_lhs => rw [resolveFrom]
      rw [hstep]
      simp [hw, hlt]
    refine ⟨heq, ?_⟩
    rw [heq]
    have := resolveFrom_calls_nonempty fetch maxAttempts stream_id (n + 1)
    simp only [List.length_cons]
    omega
  · rw [resolveFrom, hstep]
    simp [hw, Nat.not_lt.mpr hge]
  · rw [resolveFrom, hstep]
    simp [hnw]

theorem c4_failure_classification_witness :
    2 ≤ (resolveFrom (fun _ => waitResp) 2 "abc" 0).2.length ∧
    resolveFrom (fun _ => banResp) 2 "abc" 0 =
      (ResolveResult.redditError "banned", [requestURL "abc" 0]) :=
  ⟨(((c4_failure_classification (fun _ => waitResp) 2 "abc" 0 "please wait 10 seconds" none
        rfl rfl rfl).1 (by decide)).1 (by decide)).2,
   (c4_failure_classification (fun _ => banResp) 2 "abc" 0 "banned" none
        rfl rfl rfl).2 (by decide)⟩

/-
  C10.
-/

/-- On an odd attempt the resolver takes the fallback path, deriving the
status from the presence of the post data. -/
theorem resolveStep_fallback (stream_id : String) (n : Nat) (info : Json)
    (hodd : n % 2 = 1) :
    resolveStep stream_id n info =
      resolveDispatch true info none
        (if truthyOpt (fallbackData stream_id info) then some (Json.str "success") else none)
        (fallbackData stream_id info) := by
  rw [resolveStep, statusOf, statusMessageOf, dataOf]
  simp [hodd]

/-- C10: on every odd (fallback) attempt, the resolver can never fail with
`VideoNotFound`: the fallback path derives `status` as either `success` or
`None` (reddit.py line 183), so the `video not found` branch is
unreachable, and when the fallback response lacks the post data the
resolver fails with the unexpected-response error carrying the full
payload. -/
theorem c10_fallback_never_video_not_found (stream_id : String) (n : Nat) (info : Json)
    (hodd : n % 2 = 1) :
    (∀ sm, resolveStep stream_id n info ≠ StepOutcome.done (ResolveResult.videoNotFound sm)) ∧
    (truthyOpt (fallbackData stream_id info) = false →
      resolveStep stream_id n info = StepOutcome.done (ResolveResult.unexpectedError info)) := by
  have hstep := resolveStep_fallback stream_id n info hodd
  constructor
  · intro sm hvnf
    rw [hstep] at hvnf
    by_cases htr : truthyOpt (fallbackData stream_id info) = true
    · rw [htr] at hvnf
      simp only [if_true] at hvnf
      rcases hfd : fallbackData stream_id info with _ | j
      · rw [hfd] at htr
        exact absurd htr (by simp [truthyOpt])
      · rw [hfd] at hvnf
        cases j with
        | obj fields =>
          simp [resolveDispatch, isStr] at hvnf
          exact successBranch_ne_videoNotFound true (Json.obj fields) sm hvnf
        | null => simp [resolveDispatch, isStr] at hvnf
        | bool b => simp [resolveDispatch, isStr] at hvnf
        | num v => simp [resolveDispatch, isStr] at hvnf
        | str s2 => simp [resolveDispatch, isStr] at hvnf
        | arr elems => simp [resolveDispatch, isStr] at hvnf
    · rw [Bool.not_eq_true] at htr
      rw [htr] at hvnf
      simp [resolveDispatch, isStr] at hvnf
  · intro htr
    rw [hstep, htr]
    simp [resolveDispatch, isStr]

theorem c10_fallback_never_video_not_found_witness :
    resolveStep "abc" 1 Json.null ≠
      StepOutcome.done (ResolveResult.videoNotFound none) ∧
    resolveStep "abc" 1 Json.null =
      StepOutcome.done (ResolveResult.unexpectedError Json.null) :=
  ⟨(c10_fallback_never_video_not_found "abc" 1 Json.null rfl).1 none,
   (c10_fallback_never_video_not_found "abc" 1 Json.null rfl).2 rfl⟩

/-
  C5.
-/

/-- C5 counterexample: a resolution can yield a feed address that does not
begin with `wss://` and still fail with a different error than the
invalid-feed-address one: when the stream is not deemed live, the resolver
takes the replay-not-implemented exit (reddit.py lines 215-217) without
ever inspecting the address scheme. -/
theorem c5_feed_address_counterexample :
    (postInfoOf dataEndedInsecure).get "liveCommentsWebsocket" =
      some (Json.str "ws://insecure.example") ∧
    strStartsWith "ws://insecure.example" "wss://" = false ∧
    resolveStep "abc" 0 respEndedInsecure =
      StepOutcome.done
        (ResolveResult.redditError "Video ended. Chat replay not implemented yet.") ∧
    "Video ended. Chat replay not implemented yet." ≠
      "Invalid websocket URL: " ++ "ws://insecure.example" :=
  ⟨rfl, by decide, rfl, by decide⟩

/-- C5 amended: whenever the resolver reaches the success branch with the
stream deemed live and a nonempty feed address that does not begin with
the secure scheme `wss://`, it fails with the invalid-feed-address error
(reddit.py lines 204-206); the error is raised during resolution, before
any socket connection is attempted. -/
theorem c5_invalid_feed_address (fallback : Bool) (d : Json)
    (title : Option Json) (st : Json) (u : String)
    (hcd : truthyOpt (d.get "chat_disabled") = false)
    (ht : pyGetJ (postInfoOf d) "title" = Except.ok title)
    (hl : isLiveOf fallback d = Except.ok true)
    (hst : startTimeOf d = Except.ok st)
    (hsu : pyGetJ (postInfoOf d) "liveCommentsWebsocket" = Except.ok (some (Json.str u)))
    (hne : u ≠ "")
    (hpre : strStartsWith u "wss://" = false) :
    successBranch fallback d =
      ResolveResult.redditError ("Invalid websocket URL: " ++ u) := by
  rw [successBranch, hcd]
  simp only [Bool.false_eq_true, if_false]
  rw [ht, hl, hst, hsu]
  have htru : truthyOpt (some (Json.str u)) = true := by
    simp [truthyOpt, truthy, hne]
  simp [htru, hpre]

theorem c5_invalid_feed_address_witness :
    successBranch false dataLiveInsecure =
      ResolveResult.redditError ("Invalid websocket URL: " ++ "ws://insecure.example") :=
  c5_invalid_feed_address false dataLiveInsecure (some (Json.str "T"))
    (Json.num 1000) "ws://insecure.example" rfl rfl rfl rfl rfl
    (by decide) (by decide)

/-
  C7.
-/

/-- C7: the resolved liveness flag is true exactly when the extracted
stream state equals the `IS_LIVE` sentinel or the response came from the
fallback endpoint (reddit.py line 196); in particular every successful
fallback resolution is treated as live, and whenever the success branch
returns a chat handle its liveness flag is the one computed by this rule
from the response. -/
theorem c7_liveness_flag :
    (∀ (state : Option Json) (fallback : Bool),
        computeIsLive state fallback = true ↔
          (state = some (Json.str "IS_LIVE") ∨ fallback = true)) ∧
    (∀ (fallback : Bool) (d : Json) (title : Option Json) (live : Bool)
        (st : Json) (u : String),
        successBranch fallback d = ResolveResult.chat title live st u →
        isLiveOf fallback d = Except.ok live) := by
  constructor
  · intro state fallback
    rw [computeIsLive, Bool.or_eq_true, isStr_eq_true_iff]
  · intro fallback d title live st u h
    rw [successBranch] at h
    split at h
    · exact absurd h (by simp)
    · split at h
      · exact absurd h (by simp)
      · split at h
        · exact absurd h (by simp)
        · split at h
          · exact absurd h (by simp)
          · split at h
            · exact absurd h (by simp)
            · split at h
              · split at h
                · split at h
                  · simp only [ResolveResult.chat.injEq] at h
                    obtain ⟨h1, h2, h3, h4⟩ := h
                    subst h2
                    assumption
                  · exact absurd h (by simp)
                · exact absurd h (by simp)
              · exact absurd h (by simp)

theorem c7_liveness_flag_witness :
    isLiveOf false dataLiveOk = Except.ok true :=
  c7_liveness_flag.2 false dataLiveOk (some (Json.str "T")) true
    (Json.num 7000) "wss://x" rfl

/-
  C8.
-/

/-- C8: for every raw message whose `created_utc` field parses as a number
`v` (the parse given by `int_or_none`, independent of the default), the
normalizer maps it to a timestamp of `v * 1000000` (the `_REMAPPING`
lambda at reddit.py line 95). -/
theorem c8_timestamp_scaling (now : Int) (fields : List (String × Json))
    (x : Json) (v : Int) (p : ParsedItem)
    (hfield : lookupField fields "created_utc" = some x)
    (hparse : ∀ d : Int, int_or_none x d = v)
    (hok : _parse_item now (Json.obj fields) = Except.ok p) :
    p.timestamp = some (v * 1000000) := by
  rw [_parse_item] at hok
  split at hok
  · simp only [Except.ok.injEq] at hok
    rw [← hok]
    simp [_parse_item.parsedOf, hfield, hparse now]
  · simp at hok
  · simp only [Except.ok.injEq] at hok
    rw [← hok]
    simp [_parse_item.parsedOf, hfield, hparse now]

theorem c8_timestamp_scaling_witness :
    ParsedItem.timestamp
        { timestamp := some 1625242320000000 } = some (1625242320 * 1000000) :=
  c8_timestamp_scaling 0 [("created_utc", Json.num 1625242320)]
    (Json.num 1625242320) 1625242320 { timestamp := some 1625242320000000 }
    rfl (fun _ => rfl) rfl

/-
  C9.
-/

/-- C9 counterexample: with `publish_at` present but equal to `0` and
`created` equal to `5`, the resolver returns a start time of `5000`, not
`0 * 1000`: Python `or` (reddit.py line 197) falls through to `created`
whenever `publish_at` is falsy, not merely when it is absent. -/
theorem c9_start_time_counterexample :
    (streamInfoOf dataZeroPublish).get "publish_at" = some (Json.num 0) ∧
    resolveStep "abc" 0 respZeroPublish =
      StepOutcome.done
        (ResolveResult.chat (some (Json.str "T")) true (Json.num 5000) "wss://x") ∧
    (5000 : Int) ≠ 0 * 1000 :=
  ⟨rfl, rfl, by decide⟩

/-- C9 amended: the start time computed on a success response equals
`publish_at * 1000` when `publish_at` is present with a truthy (nonzero)
numeric value, and otherwise `created * 1000` when `publish_at` is absent
or falsy and `created` holds a number. -/
theorem c9_start_time_truthy_preference (d : Json) (fields : List (String × Json))
    (v w : Int) (hs : streamInfoOf d = Json.obj fields) :
    (lookupField fields "publish_at" = some (Json.num v) → v ≠ 0 →
      startTimeOf d = Except.ok (Json.num (v * 1000))) ∧
    (truthyOpt (lookupField fields "publish_at") = false →
      lookupField fields "created" = some (Json.num w) →
      startTimeOf d = Except.ok (Json.num (w * 1000))) := by
  constructor
  · intro hpa hv
    rw [startTimeOf, hs]
    simp only [pyGetJ]
    rw [hpa]
    have : truthyOpt (some (Json.num v)) = true := by
      simp [truthyOpt, truthy, hv]
    simp [pyOr, this, pyMul1000]
  · intro hpf hcr
    rw [startTimeOf, hs]
    simp only [pyGetJ]
    rw [hcr]
    simp [pyOr, hpf, pyMul1000]

theorem c9_start_time_truthy_preference_witness :
    startTimeOf dataLiveOk = Except.ok (Json.num (7 * 1000)) ∧
    startTimeOf dataZeroPublish = Except.ok (Json.num (5 * 1000)) :=
  ⟨(c9_start_time_truthy_preference dataLiveOk
      [("state", Json.str "IS_LIVE"), ("publish_at", Json.num 7)] 7 0 rfl).1
      rfl (by decide),
   (c9_start_time_truthy_preference dataZeroPublish
      [("state", Json.str "IS_LIVE"), ("publish_at", Json.num 0), ("created", Json.num 5)]
      0 5 rfl).2 rfl rfl⟩

/-
  C6.
-/

/-- C6: in the event sequence where the connection succeeds, one
well-formed `new_comment` frame arrives, the socket resets, reconnection
succeeds and one more well-formed frame arrives, the feed consumer emits
exactly the two normalized records, closes the stale socket (number 0),
reconnects to the same feed address (opening socket 1 against it), and
propagates no error to the caller; and receive timeouts are never treated
as errors: deleting a timeout event from any trace leaves the run
unchanged. -/
theorem c6_reconnect_two_records :
    runConsumer 99 "wss://feed.example"
        [SockEvent.frame (some frameA), SockEvent.connError, SockEvent.frame (some frameB)] =
      { emitted := [{ message_type := "new_comment", item := itemA },
                    { message_type := "new_comment", item := itemB }],
        opened := [("wss://feed.example", 0), ("wss://feed.example", 1)],
        closed := [0],
        escaped := none,
        current := some 1 } ∧
    (∀ (now : Int) (url : String) (cur next : Nat) (pre post : List SockEvent),
        consumeLoop now url cur next (pre ++ SockEvent.timeout :: post) =
          consumeLoop now url cur next (pre ++ post)) :=
  ⟨rfl, fun now url cur next pre post => consumeLoop_timeout_skip now url pre post cur next⟩
